import Mathlib

/-!
Verification of the HQTS hierarchical QoS traffic shaper core.

Shallow embedding of the C++ sources under `src/hqts`:
token bucket (core/token_bucket.cpp), two-rate three-color traffic
shaper (core/traffic_shaper.cpp), RED AQM queue (scheduler/aqm_queue.cpp),
strict-priority scheduler (scheduler/strict_priority_scheduler.cpp),
WRR scheduler enqueue path (scheduler/wrr_scheduler.cpp and
include/hqts/scheduler/wrr_scheduler.h), HFSC scheduler
(scheduler/hfsc_scheduler.cpp), and the flow classifier
(dataplane/flow_classifier.cpp).

Machine integers (uint64_t, uint32_t, uint8_t) are modelled as `Nat`.
The steady-clock timestamps are modelled as a `Nat` microsecond count
passed explicitly to every operation that reads the clock.
-/

namespace Hqts

/-! ## TokenBucket (core/token_bucket.cpp) -/

/-- State of `hqts::core::TokenBucket`: capacity and current fill in bytes,
rate in bits per second, and the last refill timestamp in microseconds. -/
structure TokenBucket where
  capacity_bytes : Nat
  tokens_bytes : Nat
  rate_bps : Nat
  last_refill_time : Nat
deriving Repr, DecidableEq

namespace TokenBucket

/-- The constructor `TokenBucket(rate_bps, capacity_bytes)`: the bucket starts
full (`tokens_bytes_(capacity_bytes)`) with `last_refill_time_` set to the
construction instant. -/
def create (rate_bps capacity_bytes now : Nat) : TokenBucket :=
  { capacity_bytes := capacity_bytes
    tokens_bytes := capacity_bytes
    rate_bps := rate_bps
    last_refill_time := now }

/-- `TokenBucket::refill`: add `elapsed_us * rate_bps / (8 * 1000000)` tokens
when positive time has elapsed, saturate at capacity, and advance
`last_refill_time_` to `now`.  (`now - last` is the signed elapsed count in
the source; with `Nat` truncated subtraction a non-positive elapsed time
yields `0`, matching the `elapsed_microseconds > 0` guard.) -/
def refill (b : TokenBucket) (now : Nat) : TokenBucket :=
  let elapsed := now - b.last_refill_time
  let b' :=
    if 0 < elapsed then
      let new_tokens := elapsed * b.rate_bps / (8 * 1000000)
      if 0 < new_tokens then
        { b with tokens_bytes := min b.capacity_bytes (b.tokens_bytes + new_tokens) }
      else b
    else b
  { b' with last_refill_time := now }

/-- `TokenBucket::consume`: refill lazily, then admit and debit iff enough
tokens are available. -/
def consume (b : TokenBucket) (now tokens_to_consume : Nat) : Bool × TokenBucket :=
  let b := refill b now
  if tokens_to_consume ≤ b.tokens_bytes then
    (true, { b with tokens_bytes := b.tokens_bytes - tokens_to_consume })
  else
    (false, b)

/-- `TokenBucket::available_tokens`: a refilling observer of the token count. -/
def available_tokens (b : TokenBucket) (now : Nat) : Nat :=
  (refill b now).tokens_bytes

end TokenBucket

/-! ## Packet descriptors and flow contexts
(include/hqts/scheduler/packet_descriptor.h, include/hqts/core/flow_context.h) -/

/-- `hqts::scheduler::ConformanceLevel`. -/
inductive ConformanceLevel where
  | GREEN
  | YELLOW
  | RED
deriving Repr, DecidableEq

/-- `hqts::scheduler::PacketDescriptor`.  The opaque `payload` buffer is
omitted: no modelled code path reads or writes it. -/
structure PacketDescriptor where
  flow_id : Nat
  packet_length_bytes : Nat
  priority : Nat
  conformance : ConformanceLevel
deriving Repr, DecidableEq

/-- `hqts::core::DropPolicy`. -/
inductive DropPolicy where
  | TAIL_DROP
  | RED
  | WRED
deriving Repr, DecidableEq

/-- `hqts::core::FlowContext`.  Statistics, rate-tracking and timestamp fields
are omitted: no modelled code path reads them. -/
structure FlowContext where
  flow_id : Nat
  policy_id : Nat
  queue_id : Nat
  drop_policy : DropPolicy
deriving Repr, DecidableEq

/-! ## ShapingPolicy and the traffic shaper
(include/hqts/core/shaping_policy.h, core/traffic_shaper.cpp) -/

/-- `hqts::core::ShapingPolicy`: the fields read or written by the traffic
shaper.  Pure configuration fields (name, parent, rates, algorithm, weight,
target queue ids, statistics) are omitted: `apply_token_buckets` and
`process_packet` never read them. -/
structure ShapingPolicy where
  id : Nat
  drop_on_red : Bool
  target_priority_green : Nat
  target_priority_yellow : Nat
  target_priority_red : Nat
  cir_bucket : TokenBucket
  pir_bucket : TokenBucket
deriving Repr, DecidableEq

/-- The `PolicyTree` (a Boost multi-index container) restricted to its
unique-id view: an association list of policies looked up by `id`. -/
def PolicyTree := List ShapingPolicy

/-- Lookup in the `by_id` index: `policy_id_index.find(policy_id)`. -/
def PolicyTree.findPolicy (tree : PolicyTree) (pid : Nat) : Option ShapingPolicy :=
  List.find? (fun p => p.id == pid) tree

/-- `policy_tree_.modify(it, ...)`: replace the policy whose id is `pid`. -/
def PolicyTree.updatePolicy (tree : PolicyTree) (pid : Nat) (p' : ShapingPolicy) :
    PolicyTree :=
  List.map (fun p => if p.id == pid then p' else p) tree

/-- `TrafficShaper::apply_token_buckets`: two-rate three-color marking.
`consume` on CIR success also best-effort debits the PIR bucket; on CIR
failure the PIR bucket decides YELLOW versus RED.  Both buckets observe the
same clock instant `now`. -/
def applyTokenBuckets (policy : ShapingPolicy) (packet_length_bytes now : Nat) :
    ConformanceLevel × ShapingPolicy :=
  let cirResult := policy.cir_bucket.consume now packet_length_bytes
  if cirResult.1 then
    let pirResult := policy.pir_bucket.consume now packet_length_bytes
    (ConformanceLevel.GREEN,
      { policy with cir_bucket := cirResult.2, pir_bucket := pirResult.2 })
  else
    let pirResult := policy.pir_bucket.consume now packet_length_bytes
    if pirResult.1 then
      (ConformanceLevel.YELLOW,
        { policy with cir_bucket := cirResult.2, pir_bucket := pirResult.2 })
    else
      (ConformanceLevel.RED,
        { policy with cir_bucket := cirResult.2, pir_bucket := pirResult.2 })

/-- Result of `TrafficShaper::process_packet`: the boolean return value
(`true` = enqueue, `false` = drop), the mutated descriptor, and the policy
tree after the `modify` call. -/
structure ProcessResult where
  enqueue : Bool
  packet : PacketDescriptor
  tree : List ShapingPolicy
deriving Repr, DecidableEq

/-- `TrafficShaper::process_packet(packet, flow_context)`: look up the flow's
bound policy; if missing, mark RED and report drop without touching the tree.
Otherwise run the meter, write the color onto the descriptor, and either
report drop (RED with `drop_on_red`) or overwrite the descriptor's priority
with the per-color target. -/
def processPacket (tree : PolicyTree) (packet : PacketDescriptor)
    (flow_context : FlowContext) (now : Nat) : ProcessResult :=
  match tree.findPolicy flow_context.policy_id with
  | none =>
      { enqueue := false
        packet := { packet with conformance := ConformanceLevel.RED }
        tree := tree }
  | some policy =>
      let meter := applyTokenBuckets policy packet.packet_length_bytes now
      let conformance_level := meter.1
      let policy' := meter.2
      let packet := { packet with conformance := conformance_level }
      let tree' := tree.updatePolicy flow_context.policy_id policy'
      if conformance_level == ConformanceLevel.RED && policy'.drop_on_red then
        { enqueue := false, packet := packet, tree := tree' }
      else
        let newPriority :=
          match conformance_level with
          | ConformanceLevel.GREEN => policy'.target_priority_green
          | ConformanceLevel.YELLOW => policy'.target_priority_yellow
          | ConformanceLevel.RED => policy'.target_priority_red
        { enqueue := true
          packet := { packet with priority := newPriority }
          tree := tree' }

/-! ## RED AQM queue (scheduler/aqm_queue.cpp)

The EWMA average (`average_queue_size_bytes_`), the drop-probability
computation and the uniform draw are IEEE-double state feeding a single
boolean decision, `final_drop_prob > 0 && sample < final_drop_prob`.  That
decision is abstracted as an explicit boolean input `red_drop` to `enqueue`;
every theorem below holds for both values of the oracle, hence for whatever
the floating-point computation yields.  The integer state (`params_.
queue_capacity_bytes`, `packet_buffer_`, `current_total_bytes_`,
`packets_since_last_drop_`) is modelled exactly. -/

/-- Integer state of `hqts::scheduler::RedAqmQueue`. -/
structure RedAqmQueue where
  queue_capacity_bytes : Nat
  packet_buffer : List PacketDescriptor
  current_total_bytes : Nat
  packets_since_last_drop : Nat
deriving Repr, DecidableEq

namespace RedAqmQueue

/-- A freshly constructed queue: empty buffer, zero byte count and counter. -/
def init (capacity : Nat) : RedAqmQueue :=
  { queue_capacity_bytes := capacity
    packet_buffer := []
    current_total_bytes := 0
    packets_since_last_drop := 0 }

/-- `RedAqmQueue::enqueue`.  Physical overflow rejects without touching any
counter; a probabilistic RED drop (`red_drop = true`) resets
`packets_since_last_drop_`; acceptance appends the packet, adds its bytes and
bumps the counter. -/
def enqueue (q : RedAqmQueue) (packet : PacketDescriptor) (red_drop : Bool) :
    Bool × RedAqmQueue :=
  if q.queue_capacity_bytes < q.current_total_bytes + packet.packet_length_bytes then
    (false, q)
  else if red_drop then
    (false, { q with packets_since_last_drop := 0 })
  else
    (true,
      { q with
        packets_since_last_drop := q.packets_since_last_drop + 1
        current_total_bytes := q.current_total_bytes + packet.packet_length_bytes
        packet_buffer := q.packet_buffer ++ [packet] })

/-- `RedAqmQueue::dequeue`: pop the oldest packet and deduct its bytes;
`none` models the `std::runtime_error` on an empty queue. -/
def dequeue (q : RedAqmQueue) : Option (PacketDescriptor × RedAqmQueue) :=
  match q.packet_buffer with
  | [] => none
  | packet :: rest =>
      some (packet,
        { q with
          packet_buffer := rest
          current_total_bytes := q.current_total_bytes - packet.packet_length_bytes })

/-- `RedAqmQueue::is_empty`. -/
def is_empty (q : RedAqmQueue) : Bool :=
  q.packet_buffer.isEmpty

end RedAqmQueue

/-- One externally driven operation on an AQM queue: an arrival (with the
resolved value of the probabilistic drop decision) or a departure. -/
inductive AqmOp where
  | enq (packet : PacketDescriptor) (red_drop : Bool)
  | deq
deriving Repr, DecidableEq

/-- Apply one operation; a dequeue of an empty queue throws in the source and
leaves the state unchanged here. -/
def RedAqmQueue.step (q : RedAqmQueue) : AqmOp → RedAqmQueue
  | AqmOp.enq packet red_drop => (q.enqueue packet red_drop).2
  | AqmOp.deq =>
      match q.dequeue with
      | none => q
      | some pr => pr.2

/-- Run a sequence of operations from a freshly constructed queue. -/
def RedAqmQueue.run (capacity : Nat) (ops : List AqmOp) : RedAqmQueue :=
  ops.foldl RedAqmQueue.step (RedAqmQueue.init capacity)

/-- Total bytes of the packets in a buffer. -/
def bufferBytes (l : List PacketDescriptor) : Nat :=
  (l.map (fun p => p.packet_length_bytes)).sum

/-! ## Strict-priority scheduler (scheduler/strict_priority_scheduler.cpp) -/

/-- State of `hqts::scheduler::StrictPriorityScheduler`: one AQM queue per
priority level (`priority_queues_[k]` serves level `k`) and the running
packet count. -/
structure StrictPriorityScheduler where
  priority_queues : List RedAqmQueue
  total_packets : Nat
deriving Repr, DecidableEq

namespace StrictPriorityScheduler

/-- `StrictPriorityScheduler::enqueue`: `packet.priority` indexes the level;
out-of-range throws (`none`); the counter is bumped only when the AQM queue
accepts. -/
def enqueue (s : StrictPriorityScheduler) (packet : PacketDescriptor)
    (red_drop : Bool) : Option StrictPriorityScheduler :=
  match s.priority_queues[packet.priority]? with
  | none => none
  | some q =>
      let result := q.enqueue packet red_drop
      some
        { priority_queues := s.priority_queues.set packet.priority result.2
          total_packets := if result.1 then s.total_packets + 1 else s.total_packets }

/-- The dequeue scan: the source iterates `current_priority_index` from
`num_levels_ - 1` down to `0` and serves the first non-empty queue, i.e. the
non-empty queue of highest index.  Returns that level, the packet, and the
updated queue list. -/
def scanHighest : List RedAqmQueue → Option (Nat × PacketDescriptor × List RedAqmQueue)
  | [] => none
  | q :: rest =>
      match scanHighest rest with
      | some (lvl, packet, rest') => some (lvl + 1, packet, q :: rest')
      | none =>
          match q.dequeue with
          | none => none
          | some (packet, q') => some (0, packet, q' :: rest)

/-- `StrictPriorityScheduler::dequeue`; `none` models the empty-scheduler
`std::runtime_error` and the inconsistency `std::logic_error`.  The served
level is returned alongside the packet for the statements below. -/
def dequeue (s : StrictPriorityScheduler) :
    Option (Nat × PacketDescriptor × StrictPriorityScheduler) :=
  if s.total_packets = 0 then none
  else
    match scanHighest s.priority_queues with
    | none => none
    | some (lvl, packet, qs') =>
        some (lvl, packet, { priority_queues := qs', total_packets := s.total_packets - 1 })

/-- `StrictPriorityScheduler::is_empty`. -/
def is_empty (s : StrictPriorityScheduler) : Bool :=
  s.total_packets == 0

end StrictPriorityScheduler

/-! ## WRR scheduler enqueue path

Two models.  `WrrScheduler` follows `src/scheduler/wrr_scheduler.cpp`, whose
`InternalQueueState::packet_queue` is a plain `std::queue<PacketDescriptor>`
(`packet_queue.push(...)` followed by an unconditional `total_packets_++`).
`WrrSchedulerHdr` follows the declaration the rest of the repository
compiles against - `include/hqts/scheduler/wrr_scheduler.h` declares
`RedAqmQueue packet_queue` and `QueueConfig{id, weight, aqm_params}`, and
`tests/unit/scheduler/test_wrr_scheduler.cpp` constructs exactly that - with
the enqueue contract of spec §4.7: route to the AQM queue, bump the counter
only on acceptance. -/

/-- `WrrScheduler::InternalQueueState` as implemented in wrr_scheduler.cpp:
a plain FIFO. -/
structure WrrQueueState where
  external_id : Nat
  weight : Nat
  current_deficit : Int
  packet_queue : List PacketDescriptor
deriving Repr, DecidableEq

/-- `hqts::scheduler::WrrScheduler` state, as implemented in
wrr_scheduler.cpp. -/
structure WrrScheduler where
  queues : List WrrQueueState
  total_packets : Nat
deriving Repr, DecidableEq

/-- `WrrScheduler::enqueue` (wrr_scheduler.cpp): `packet.priority` is the
queue id; an unconfigured id throws (`none`); otherwise push onto the plain
FIFO and increment `total_packets_` unconditionally. -/
def WrrScheduler.enqueue (s : WrrScheduler) (packet : PacketDescriptor) :
    Option WrrScheduler :=
  if (s.queues.find? (fun q => q.external_id == packet.priority)).isNone then none
  else
    some
      { queues := s.queues.map (fun q =>
          if q.external_id == packet.priority then
            { q with packet_queue := q.packet_queue ++ [packet] }
          else q)
        total_packets := s.total_packets + 1 }

/-- `WrrScheduler::is_empty` (wrr_scheduler.cpp). -/
def WrrScheduler.is_empty (s : WrrScheduler) : Bool :=
  s.total_packets == 0

/-- `WrrScheduler::InternalQueueState` as declared in wrr_scheduler.h:
`RedAqmQueue packet_queue`. -/
structure WrrHdrQueueState where
  external_id : Nat
  weight : Nat
  current_deficit : Int
  packet_queue : RedAqmQueue
deriving Repr, DecidableEq

/-- WRR scheduler state over AQM-backed queues (wrr_scheduler.h). -/
structure WrrSchedulerHdr where
  queues : List WrrHdrQueueState
  total_packets : Nat
deriving Repr, DecidableEq

/-- Modelled from the spec: `WrrScheduler::enqueue` under the shared contract
of spec §4.7 ("routes to one of several internal AQM queues ... increments a
total-packet counter only when the AQM queue accepts"), against the
AQM-backed queue state that `wrr_scheduler.h` declares; no matching
implementation exists in wrr_scheduler.cpp. -/
def WrrSchedulerHdr.enqueue (s : WrrSchedulerHdr) (packet : PacketDescriptor)
    (red_drop : Bool) : Option WrrSchedulerHdr :=
  if (s.queues.find? (fun q => q.external_id == packet.priority)).isNone then none
  else
    let accepted := s.queues.any (fun q =>
      q.external_id == packet.priority && (q.packet_queue.enqueue packet red_drop).1)
    some
      { queues := s.queues.map (fun q =>
          if q.external_id == packet.priority then
            { q with packet_queue := (q.packet_queue.enqueue packet red_drop).2 }
          else q)
        total_packets := if accepted then s.total_packets + 1 else s.total_packets }

/-! ## Flow classifier (dataplane/flow_classifier.cpp) -/

/-- `hqts::dataplane::FiveTuple`. -/
structure FiveTuple where
  src_ip : Nat
  dst_ip : Nat
  src_port : Nat
  dst_port : Nat
  protocol : Nat
deriving Repr, DecidableEq

/-- `hqts::dataplane::FlowClassifier` together with the `FlowTable` it
populates.  The mutex only guards the two members modelled here; the
embedding is sequential. -/
structure FlowClassifier where
  flow_key_to_flow_id_map : List (FiveTuple × Nat)
  next_flow_id : Nat
  default_policy_id : Nat
  flow_table : List (Nat × FlowContext)
deriving Repr, DecidableEq

namespace FlowClassifier

/-- The constructor: empty maps, `next_flow_id_(1)`. -/
def create (default_policy_id : Nat) : FlowClassifier :=
  { flow_key_to_flow_id_map := []
    next_flow_id := 1
    default_policy_id := default_policy_id
    flow_table := [] }

/-- `flow_key_to_flow_id_map_.find(five_tuple)`. -/
def lookupTuple (m : List (FiveTuple × Nat)) (t : FiveTuple) : Option Nat :=
  (m.find? (fun e => e.1 == t)).map (fun e => e.2)

/-- `flow_table_.find(flow_id)`. -/
def lookupTable (m : List (Nat × FlowContext)) (fid : Nat) : Option FlowContext :=
  (m.find? (fun e => e.1 == fid)).map (fun e => e.2)

/-- `FlowClassifier::get_or_create_flow`: return the interned id on a hit;
on a miss allocate `next_flow_id_++`, publish the tuple mapping, and emplace
a `FlowContext(new_id, default_policy_id_, 0, TAIL_DROP)` into the flow
table (`emplace` inserts only when the key is absent). -/
def get_or_create_flow (c : FlowClassifier) (five_tuple : FiveTuple) :
    Nat × FlowClassifier :=
  match lookupTuple c.flow_key_to_flow_id_map five_tuple with
  | some fid => (fid, c)
  | none =>
      let new_id := c.next_flow_id
      let ctx : FlowContext :=
        { flow_id := new_id
          policy_id := c.default_policy_id
          queue_id := 0
          drop_policy := DropPolicy.TAIL_DROP }
      (new_id,
        { c with
          next_flow_id := new_id + 1
          flow_key_to_flow_id_map := (five_tuple, new_id) :: c.flow_key_to_flow_id_map
          flow_table :=
            if (lookupTable c.flow_table new_id).isSome then c.flow_table
            else (new_id, ctx) :: c.flow_table })

end FlowClassifier

/-! ## HFSC scheduler
(include/hqts/scheduler/hfsc_scheduler.h, scheduler/hfsc_scheduler.cpp)

`uint64_t` virtual times are modelled as `Nat` with
`UMAX = std::numeric_limits<uint64_t>::max()` as the *infinity* sentinel
returned by `calculate_packet_service_time_us` for a zero-rate curve.  In the
source, sums involving the sentinel wrap modulo 2^64, but every such sum is
guarded by the `*_valid` flags or by a `!= max` test before use, so the
guarded values never feed the scheduler state; the `Nat` model keeps the
same guards. -/

/-- `std::numeric_limits<uint64_t>::max()`. -/
def UMAX : Nat := 2 ^ 64 - 1

/-- `hqts::scheduler::ServiceCurve`. -/
structure ServiceCurve where
  rate_bps : Nat
  delay_us : Nat
deriving Repr, DecidableEq

/-- `hqts::scheduler::HfscFlowState`. -/
structure HfscFlowState where
  flow_id : Nat
  packet_queue : List PacketDescriptor
  real_time_sc : ServiceCurve
  link_share_sc : ServiceCurve
  upper_limit_sc : ServiceCurve
  virtual_start_time : Nat
  virtual_finish_time : Nat
  eligible_time : Nat
  virtual_finish_time_ul : Nat
  parent_id : Nat
  children_ids : List Nat
deriving Repr, DecidableEq

/-- `HfscScheduler::EligibleFlow`: the heap keys of the eligible set. -/
structure EligibleFlow where
  virtual_finish_time : Nat
  flow_id : Nat
deriving Repr, DecidableEq

/-- `EligibleFlow::operator>`: order by virtual finish time, tie-break on
flow id.  (The source tests `vft != other.vft` first; comparing for equality
first is the same function.) -/
def EligibleFlow.gtOp (a b : EligibleFlow) : Bool :=
  if a.virtual_finish_time = b.virtual_finish_time then
    decide (b.flow_id < a.flow_id)
  else
    decide (b.virtual_finish_time < a.virtual_finish_time)

/-- The eligible set.  `std::priority_queue<EligibleFlow, _,
std::greater<EligibleFlow>>` pops elements in ascending `operator>` order;
since that order is total (see `hfsc_deterministic_run`), the heap is
observationally a sorted list with the minimum at the head. -/
def eligibleInsert (e : EligibleFlow) : List EligibleFlow → List EligibleFlow
  | [] => [e]
  | x :: xs => if EligibleFlow.gtOp x e then e :: x :: xs else x :: eligibleInsert e xs

/-- `hqts::scheduler::HfscScheduler` state.  `flow_states_` is the
`std::map<core::FlowId, HfscFlowState>` as an association list (the map
order is never used for behavior). -/
structure HfscScheduler where
  flow_states : List (Nat × HfscFlowState)
  total_link_bandwidth_bps : Nat
  current_virtual_time : Nat
  total_packets : Nat
  is_configured : Bool
  eligible_set : List EligibleFlow
deriving Repr, DecidableEq

namespace HfscScheduler

/-- `flow_states_.find(fid)` / `flow_states_.at(fid)`. -/
def lookupState (l : List (Nat × HfscFlowState)) (fid : Nat) : Option HfscFlowState :=
  (l.find? (fun e => e.1 == fid)).map (fun e => e.2)

/-- Write back a mutated flow state. -/
def updateState (l : List (Nat × HfscFlowState)) (fid : Nat) (fs : HfscFlowState) :
    List (Nat × HfscFlowState) :=
  l.map (fun e => if e.1 == fid then (fid, fs) else e)

/-- `HfscScheduler::calculate_packet_service_time_us`: infinite (`UMAX`) for
a zero-rate curve, else `L * 8 * 10^6 / rate`. -/
def calcServiceTime (packet_length_bytes : Nat) (sc : ServiceCurve) : Nat :=
  if sc.rate_bps = 0 then UMAX
  else packet_length_bytes * 8 * 1000000 / sc.rate_bps

/-- The RT/LS curve choice shared by `update_flow_schedule` and the re-add
block of `dequeue`: given a base eligible time, return the chosen
`(vft, eligible_time)` pair, `(UMAX, 0)` when neither curve contributes. -/
def chooseRtLs (base : Nat) (rt ls : ServiceCurve) (len : Nat) : Nat × Nat :=
  let eligible_rt := base + rt.delay_us
  let vft_rt := eligible_rt + calcServiceTime len rt
  let eligible_ls := base + ls.delay_us
  let vft_ls := eligible_ls + calcServiceTime len ls
  let rt_valid := decide (0 < rt.rate_bps)
  let ls_valid := decide (0 < ls.rate_bps)
  if rt_valid && ls_valid then
    if vft_rt ≤ vft_ls then (vft_rt, eligible_rt) else (vft_ls, eligible_ls)
  else if rt_valid then (vft_rt, eligible_rt)
  else if ls_valid then (vft_ls, eligible_ls)
  else (UMAX, 0)

/-- `HfscScheduler::update_flow_schedule(flow_id, is_newly_active)`:
compute the head packet's eligible time and virtual finish time from the
RT/LS choice, the flow's UL constraint, and the (two-level) parent cascade;
on a finite VFT update the flow state and push into the eligible set. -/
def updateFlowSchedule (st : HfscScheduler) (flow_id : Nat) (is_newly_active : Bool) :
    HfscScheduler :=
  match lookupState st.flow_states flow_id with
  | none => st
  | some fs =>
    match fs.packet_queue with
    | [] => st
    | pkt :: _ =>
      let len := pkt.packet_length_bytes
      let base_eligible_time :=
        if is_newly_active then max st.current_virtual_time fs.virtual_finish_time
        else st.current_virtual_time
      let chosen_self := chooseRtLs base_eligible_time fs.real_time_sc fs.link_share_sc len
      let chosen_vft_self := chosen_self.1
      let chosen_eligible_self := chosen_self.2
      let service_time_self :=
        if chosen_vft_self ≠ UMAX then chosen_vft_self - chosen_eligible_self else UMAX
      let final_eligible_self :=
        if 0 < fs.upper_limit_sc.rate_bps then
          max chosen_eligible_self
            (max base_eligible_time fs.virtual_finish_time_ul + fs.upper_limit_sc.delay_us)
        else chosen_eligible_self
      let final_vft_self :=
        if 0 < fs.upper_limit_sc.rate_bps then
          if chosen_vft_self ≠ UMAX then final_eligible_self + service_time_self
          else chosen_vft_self
        else chosen_vft_self
      let cascaded :=
        if fs.parent_id ≠ 0 then
          match lookupState st.flow_states fs.parent_id with
          | none => (final_eligible_self, final_vft_self)
          | some ps =>
            let parent_base := max st.current_virtual_time ps.virtual_finish_time
            let chosen_parent := chooseRtLs parent_base ps.real_time_sc ps.link_share_sc len
            let final_eligible_parent :=
              if 0 < ps.upper_limit_sc.rate_bps then
                max chosen_parent.2
                  (max parent_base ps.virtual_finish_time_ul + ps.upper_limit_sc.delay_us)
              else chosen_parent.2
            let fe := max final_eligible_self final_eligible_parent
            (fe, if service_time_self ≠ UMAX then fe + service_time_self else UMAX)
        else (final_eligible_self, final_vft_self)
      let final_eligible := cascaded.1
      let final_vft := cascaded.2
      if final_vft ≠ UMAX then
        let fs' :=
          { fs with
            virtual_start_time := final_eligible
            virtual_finish_time := final_vft
            virtual_finish_time_ul :=
              if 0 < fs.upper_limit_sc.rate_bps then
                final_eligible + calcServiceTime len fs.upper_limit_sc
              else fs.virtual_finish_time_ul }
        { st with
          flow_states := updateState st.flow_states flow_id fs'
          eligible_set := eligibleInsert ⟨final_vft, flow_id⟩ st.eligible_set }
      else st

/-- `HfscScheduler::FlowConfig`. -/
structure FlowConfig where
  id : Nat
  parent_id : Nat
  real_time_sc : ServiceCurve
  link_share_sc : ServiceCurve
  upper_limit_sc : ServiceCurve
deriving Repr, DecidableEq

/-- A fresh `HfscFlowState` as built by the constructor loop. -/
def initFlowState (fc : FlowConfig) : HfscFlowState :=
  { flow_id := fc.id
    packet_queue := []
    real_time_sc := fc.real_time_sc
    link_share_sc := fc.link_share_sc
    upper_limit_sc := fc.upper_limit_sc
    virtual_start_time := 0
    virtual_finish_time := 0
    eligible_time := 0
    virtual_finish_time_ul := 0
    parent_id := fc.parent_id
    children_ids := [] }

/-- The constructor's insertion loop: reject duplicate ids and non-zero
self-parent ids (`std::invalid_argument`). -/
def insertConfigs : List FlowConfig → List (Nat × HfscFlowState) →
    Option (List (Nat × HfscFlowState))
  | [], acc => some acc
  | fc :: rest, acc =>
      if (lookupState acc fc.id).isSome then none
      else if fc.id == fc.parent_id && fc.id ≠ 0 then none
      else insertConfigs rest (acc ++ [(fc.id, initFlowState fc)])

/-- `HfscScheduler::HfscScheduler(flow_configs, total_link_bandwidth_bps)`:
insert every config, validate that every declared (non-zero) parent exists,
and materialize the children lists; an empty configuration yields an
unconfigured scheduler. -/
def create (flow_configs : List FlowConfig) (total_link_bandwidth_bps : Nat) :
    Option HfscScheduler :=
  match insertConfigs flow_configs [] with
  | none => none
  | some states =>
      if states.all (fun e => e.2.parent_id = 0 || (lookupState states e.2.parent_id).isSome)
      then
        some
          { flow_states := states.map (fun e =>
              (e.1, { e.2 with children_ids :=
                ((states.filter (fun c => c.2.parent_id ≠ 0 && c.2.parent_id == e.1)).map
                  (fun c => c.1)) }))
            total_link_bandwidth_bps := total_link_bandwidth_bps
            current_virtual_time := 0
            total_packets := 0
            is_configured := !flow_configs.isEmpty
            eligible_set := [] }
      else none

/-- `HfscScheduler::enqueue`: `packet.priority` selects the leaf; append to
its queue, bump the count, and schedule the flow when it transitioned from
empty; `none` models the unconfigured/unknown-flow exceptions. -/
def enqueue (st : HfscScheduler) (packet : PacketDescriptor) : Option HfscScheduler :=
  if !st.is_configured then none
  else
    match lookupState st.flow_states packet.priority with
    | none => none
    | some fs =>
        let was_empty := fs.packet_queue.isEmpty
        let st' :=
          { st with
            flow_states := updateState st.flow_states packet.priority
              { fs with packet_queue := fs.packet_queue ++ [packet] }
            total_packets := st.total_packets + 1 }
        if was_empty then some (updateFlowSchedule st' packet.priority true)
        else some st'

/-- The re-registration block at the end of `HfscScheduler::dequeue`: the
flow's next head packet is scheduled from `current_virtual_time_` using only
its own RT/LS/UL curves (no parent cascade and no `vft_ul` refresh here). -/
def rescheduleAfterDequeue (st : HfscScheduler) (flow_id : Nat) : HfscScheduler :=
  match lookupState st.flow_states flow_id with
  | none => st
  | some fs =>
    match fs.packet_queue with
    | [] => st
    | pkt :: _ =>
      let len := pkt.packet_length_bytes
      let chosen := chooseRtLs st.current_virtual_time fs.real_time_sc fs.link_share_sc len
      let chosen_vft := chosen.1
      let chosen_eligible := chosen.2
      let service_time := if chosen_vft ≠ UMAX then chosen_vft - chosen_eligible else UMAX
      let final_eligible :=
        if 0 < fs.upper_limit_sc.rate_bps then
          max chosen_eligible
            (max st.current_virtual_time fs.virtual_finish_time_ul +
              fs.upper_limit_sc.delay_us)
        else chosen_eligible
      let final_vft :=
        if 0 < fs.upper_limit_sc.rate_bps then
          if chosen_vft ≠ UMAX then final_eligible + service_time else chosen_vft
        else chosen_vft
      if final_vft ≠ UMAX then
        { st with
          flow_states := updateState st.flow_states flow_id
            { fs with
              virtual_start_time := final_eligible
              virtual_finish_time := final_vft }
          eligible_set := eligibleInsert ⟨final_vft, flow_id⟩ st.eligible_set }
      else st

/-- `HfscScheduler::dequeue`: pop the minimum of the eligible set, emit the
head packet of that flow, advance the virtual clock to the emitted VFT,
refresh the flow's UL finish time from the dequeued packet, and re-register
the flow when more packets remain.  `none` models every thrown exception
(unconfigured, empty, eligible-set/queue inconsistency). -/
def dequeue (st : HfscScheduler) :
    Option (Nat × PacketDescriptor × HfscScheduler) :=
  if !st.is_configured then none
  else if st.total_packets = 0 then none
  else
    match st.eligible_set with
    | [] => none
    | next :: restSet =>
        match lookupState st.flow_states next.flow_id with
        | none => none
        | some fs =>
            match fs.packet_queue with
            | [] => none
            | pkt :: restQ =>
                let fs' :=
                  { fs with
                    packet_queue := restQ
                    virtual_finish_time_ul :=
                      if 0 < fs.upper_limit_sc.rate_bps then
                        fs.virtual_start_time +
                          calcServiceTime pkt.packet_length_bytes fs.upper_limit_sc
                      else fs.virtual_finish_time_ul }
                let st' :=
                  { st with
                    eligible_set := restSet
                    current_virtual_time := next.virtual_finish_time
                    flow_states := updateState st.flow_states next.flow_id fs'
                    total_packets := st.total_packets - 1 }
                if restQ.isEmpty then some (next.flow_id, pkt, st')
                else some (next.flow_id, pkt, rescheduleAfterDequeue st' next.flow_id)

end HfscScheduler

/-- One driver call on the HFSC scheduler. -/
inductive HfscOp where
  | enq (packet : PacketDescriptor)
  | deq
deriving Repr, DecidableEq

/-- Run a call sequence, recording the flow id emitted by every dequeue;
`none` models a thrown exception aborting the run. -/
def hfscRunAux : HfscScheduler → List HfscOp → Option (HfscScheduler × List Nat)
  | st, [] => some (st, [])
  | st, HfscOp.enq packet :: rest =>
      match st.enqueue packet with
      | none => none
      | some st' => hfscRunAux st' rest
  | st, HfscOp.deq :: rest =>
      match st.dequeue with
      | none => none
      | some (fid, _, st') =>
          match hfscRunAux st' rest with
          | none => none
          | some (stf, ids) => some (stf, fid :: ids)

/-- Configure an HFSC scheduler and run a call sequence; the observable
outcome is the sequence of emitted flow ids (or an exception). -/
def hfscRun (flow_configs : List HfscScheduler.FlowConfig)
    (total_link_bandwidth_bps : Nat) (ops : List HfscOp) : Option (List Nat) :=
  match HfscScheduler.create flow_configs total_link_bandwidth_bps with
  | none => none
  | some st => (hfscRunAux st ops).map (fun r => r.2)

/-! ## Reachability and well-formedness predicates used by the theorems -/

/-- The byte-accounting invariant of a RED AQM queue with the given
configured capacity. -/
def AqmWf (capacity : Nat) (q : RedAqmQueue) : Prop :=
  q.queue_capacity_bytes = capacity ∧
  bufferBytes q.packet_buffer = q.current_total_bytes ∧
  q.current_total_bytes ≤ capacity

/-! ## Concrete states used by the witnesses and counterexamples -/

/-- Policy 4 of `tests/unit/core/test_traffic_shaper.cpp` (`CirOnlyPolicy`):
CIR = PIR = 1 Mbps, CBS = EBS = 1500 bytes, `drop_on_red = true`, all three
per-color target priorities equal to 7; both buckets constructed (full) at
time 0. -/
def demoPolicyCirOnly : ShapingPolicy :=
  { id := 4
    drop_on_red := true
    target_priority_green := 7
    target_priority_yellow := 7
    target_priority_red := 7
    cir_bucket := TokenBucket.create 1000000 1500 0
    pir_bucket := TokenBucket.create 1000000 1500 0 }

/-- A flow context bound to policy 4. -/
def demoFlowContextC1 : FlowContext :=
  { flow_id := 4, policy_id := 4, queue_id := 0, drop_policy := DropPolicy.TAIL_DROP }

/-- First 1000-byte test packet (fresh descriptors carry priority 0). -/
def demoPacketC1a : PacketDescriptor :=
  { flow_id := 4, packet_length_bytes := 1000, priority := 0,
    conformance := ConformanceLevel.GREEN }

/-- Second 1000-byte test packet. -/
def demoPacketC1b : PacketDescriptor :=
  { flow_id := 4, packet_length_bytes := 1000, priority := 0,
    conformance := ConformanceLevel.GREEN }

/-- A bucket mid-stream: capacity 100, 10 tokens left, 8 Mbps, last refill
at t = 0 (so 5 elapsed microseconds earn 5 tokens). -/
def demoBucketC2 : TokenBucket :=
  { capacity_bytes := 100, tokens_bytes := 10, rate_bps := 8000000,
    last_refill_time := 0 }

/-- A 7-byte packet. -/
def demoPacketC3a : PacketDescriptor :=
  { flow_id := 1, packet_length_bytes := 7, priority := 0,
    conformance := ConformanceLevel.GREEN }

/-- A 5-byte packet that would overflow a 10-byte queue holding 7 bytes. -/
def demoPacketC3b : PacketDescriptor :=
  { flow_id := 1, packet_length_bytes := 5, priority := 0,
    conformance := ConformanceLevel.GREEN }

/-- History: one accepted 7-byte arrival into a 10-byte-capacity queue. -/
def demoOpsC3 : List AqmOp :=
  [AqmOp.enq demoPacketC3a false]

/-- A packet waiting at priority level 0. -/
def demoPacketC4a : PacketDescriptor :=
  { flow_id := 1, packet_length_bytes := 4, priority := 0,
    conformance := ConformanceLevel.GREEN }

/-- A packet waiting at priority level 1. -/
def demoPacketC4b : PacketDescriptor :=
  { flow_id := 2, packet_length_bytes := 4, priority := 1,
    conformance := ConformanceLevel.GREEN }

/-- A two-level strict-priority scheduler with one packet at each level. -/
def demoSpsC4 : StrictPriorityScheduler :=
  { priority_queues :=
      [{ queue_capacity_bytes := 10, packet_buffer := [demoPacketC4a],
         current_total_bytes := 4, packets_since_last_drop := 1 },
       { queue_capacity_bytes := 10, packet_buffer := [demoPacketC4b],
         current_total_bytes := 4, packets_since_last_drop := 1 }]
    total_packets := 2 }

/-- `demoSpsC4` after one dequeue: the level-1 packet has been served. -/
def demoSpsC4After : StrictPriorityScheduler :=
  { priority_queues :=
      [{ queue_capacity_bytes := 10, packet_buffer := [demoPacketC4a],
         current_total_bytes := 4, packets_since_last_drop := 1 },
       { queue_capacity_bytes := 10, packet_buffer := [],
         current_total_bytes := 0, packets_since_last_drop := 1 }]
    total_packets := 1 }

/-- The wrr_scheduler.cpp scheduler: one queue, id 0, weight 1 (deficit
initialized to the weight), empty. -/
def demoWrrSrcC5 : WrrScheduler :=
  { queues := [{ external_id := 0, weight := 1, current_deficit := 1, packet_queue := [] }]
    total_packets := 0 }

/-- The wrr_scheduler.h scheduler: the same queue backed by a RED AQM queue
of physical capacity 10 bytes. -/
def demoWrrHdrC5 : WrrSchedulerHdr :=
  { queues := [{ external_id := 0, weight := 1, current_deficit := 1,
                 packet_queue := RedAqmQueue.init 10 }]
    total_packets := 0 }

/-- A 100-byte packet addressed (via `priority`) to WRR queue id 0. -/
def demoPacketC5 : PacketDescriptor :=
  { flow_id := 9, packet_length_bytes := 100, priority := 0,
    conformance := ConformanceLevel.GREEN }

/-- Two HFSC leaves: flow 1 at RT 8 Mbps, flow 2 at RT 8 Mbps, no LS/UL. -/
def demoCfgC6 : List HfscScheduler.FlowConfig :=
  [{ id := 1, parent_id := 0, real_time_sc := { rate_bps := 8000000, delay_us := 0 },
     link_share_sc := { rate_bps := 0, delay_us := 0 },
     upper_limit_sc := { rate_bps := 0, delay_us := 0 } },
   { id := 2, parent_id := 0, real_time_sc := { rate_bps := 8000000, delay_us := 0 },
     link_share_sc := { rate_bps := 0, delay_us := 0 },
     upper_limit_sc := { rate_bps := 0, delay_us := 0 } }]

/-- Enqueue 1000 bytes to flow 1 and 500 bytes to flow 2, then drain. -/
def demoOpsC6 : List HfscOp :=
  [HfscOp.enq { flow_id := 1, packet_length_bytes := 1000, priority := 1,
                conformance := ConformanceLevel.GREEN },
   HfscOp.enq { flow_id := 2, packet_length_bytes := 500, priority := 2,
                conformance := ConformanceLevel.GREEN },
   HfscOp.deq, HfscOp.deq]

/-- A packet for the missing-policy scenario. -/
def demoPacketC7 : PacketDescriptor :=
  { flow_id := 99, packet_length_bytes := 100, priority := 3,
    conformance := ConformanceLevel.GREEN }

/-- A flow context bound to policy 999, which no tree below contains. -/
def demoFlowContextC7 : FlowContext :=
  { flow_id := 99, policy_id := 999, queue_id := 0, drop_policy := DropPolicy.TAIL_DROP }

/-- A concrete 5-tuple. -/
def demoTupleC8 : FiveTuple :=
  { src_ip := 167772161, dst_ip := 167772162, src_port := 1234, dst_port := 80,
    protocol := 6 }

/-! ## Theorems -/

/-- Claim C2: `consume(n)` admits iff the lazily refilled token count is at
least `n`; the refill adds `⌊elapsed_us * rate_bps / 8000000⌋` tokens
saturated at capacity and advances `last_refill_time` to `now`; admission
debits exactly `n`; and `tokens_bytes ≤ capacity_bytes` is preserved by both
`refill` and `consume` (the lower bound `0 ≤ tokens_bytes` is intrinsic to
the `Nat` model, as it is to `uint64_t`). -/
theorem tokenBucket_consume_contract (b : TokenBucket) (now n : Nat)
    (hinv : b.tokens_bytes ≤ b.capacity_bytes) :
    ((b.consume now n).1 = true ↔ n ≤ (b.refill now).tokens_bytes) ∧
    (b.refill now).tokens_bytes =
      min b.capacity_bytes
        (b.tokens_bytes + (now - b.last_refill_time) * b.rate_bps / (8 * 1000000)) ∧
    (b.refill now).last_refill_time = now ∧
    ((b.consume now n).1 = true →
      (b.consume now n).2.tokens_bytes = (b.refill now).tokens_bytes - n) ∧
    ((b.consume now n).1 = false →
      (b.consume now n).2.tokens_bytes = (b.refill now).tokens_bytes) ∧
    (b.refill now).tokens_bytes ≤ b.capacity_bytes ∧
    (b.consume now n).2.tokens_bytes ≤ b.capacity_bytes := by
  simp only [TokenBucket.consume, TokenBucket.refill]
  split_ifs with h1 h2 h3 h4 h5 <;> simp_all <;> omega

/-- Witness for C2 at a concrete bucket: 10 tokens, 5 elapsed microseconds
at 8 Mbps earn 5 tokens, so a request for 12 is admitted. -/
theorem tokenBucket_consume_contract_witness :
    demoBucketC2.tokens_bytes ≤ demoBucketC2.capacity_bytes ∧
    (((demoBucketC2.consume 5 12).1 = true ↔
        12 ≤ (demoBucketC2.refill 5).tokens_bytes) ∧
      (demoBucketC2.refill 5).tokens_bytes =
        min demoBucketC2.capacity_bytes
          (demoBucketC2.tokens_bytes +
            (5 - demoBucketC2.last_refill_time) * demoBucketC2.rate_bps /
              (8 * 1000000)) ∧
      (demoBucketC2.refill 5).last_refill_time = 5 ∧
      ((demoBucketC2.consume 5 12).1 = true →
        (demoBucketC2.consume 5 12).2.tokens_bytes =
          (demoBucketC2.refill 5).tokens_bytes - 12) ∧
      ((demoBucketC2.consume 5 12).1 = false →
        (demoBucketC2.consume 5 12).2.tokens_bytes =
          (demoBucketC2.refill 5).tokens_bytes) ∧
      (demoBucketC2.refill 5).tokens_bytes ≤ demoBucketC2.capacity_bytes ∧
      (demoBucketC2.consume 5 12).2.tokens_bytes ≤ demoBucketC2.capacity_bytes) :=
  ⟨by decide, tokenBucket_consume_contract demoBucketC2 5 12 (by decide)⟩

/-- Claim C9: `consume(0)` is always admitted; it debits nothing (the
resulting count is exactly the lazily refilled count), and the observable
token count `available_tokens` is unchanged by the call. -/
theorem tokenBucket_consume_zero (b : TokenBucket) (now : Nat) :
    (b.consume now 0).1 = true ∧
    (b.consume now 0).2.tokens_bytes = (b.refill now).tokens_bytes ∧
    (b.consume now 0).2.available_tokens now = b.available_tokens now := by
  simp only [TokenBucket.consume, TokenBucket.refill, TokenBucket.available_tokens]
  split_ifs <;> simp_all

/-- Claim C10: a bucket is constructed full: `tokens_bytes = capacity` right
after construction, and before any further traffic a fresh bucket admits any
`consume(n)` with `n ≤ capacity` at any later instant, leaving `capacity - n`
tokens - independently of the configured rate, including rate 0. -/
theorem tokenBucket_create_full (rate cap t0 now n : Nat) (h : n ≤ cap) :
    (TokenBucket.create rate cap t0).tokens_bytes = cap ∧
    ((TokenBucket.create rate cap t0).consume now n).1 = true ∧
    ((TokenBucket.create rate cap t0).consume now n).2.tokens_bytes = cap - n := by
  simp only [TokenBucket.create, TokenBucket.consume, TokenBucket.refill]
  split_ifs <;> simp_all

/-- Witness for C10: a zero-rate bucket of capacity 5 admits a 5-byte
consume at a later instant. -/
theorem tokenBucket_create_full_witness :
    5 ≤ 5 ∧
    ((TokenBucket.create 0 5 0).tokens_bytes = 5 ∧
      ((TokenBucket.create 0 5 0).consume 3 5).1 = true ∧
      ((TokenBucket.create 0 5 0).consume 3 5).2.tokens_bytes = 5 - 5) :=
  ⟨by decide, tokenBucket_create_full 0 5 0 3 5 (by decide)⟩

/-- Claim C1: the meter's colors and the drop verdict behave as claimed, but
the dropped-RED branch of `process_packet` skips the per-color priority map:
on the CirOnly scenario of `test_traffic_shaper.cpp` the first 1000-byte
packet is GREEN with priority rewritten to 7, while the second is RED and
dropped with its priority left at the ingress value 0 even though
`target_priority_red = 7` - the test asserts `packet2.priority == 7`, so the
implementation contradicts its own test here. -/
theorem shaper_dropped_red_priority_unchanged :
    (processPacket [demoPolicyCirOnly] demoPacketC1a demoFlowContextC1 0).enqueue
        = true ∧
    (processPacket [demoPolicyCirOnly] demoPacketC1a
        demoFlowContextC1 0).packet.conformance = ConformanceLevel.GREEN ∧
    (processPacket [demoPolicyCirOnly] demoPacketC1a
        demoFlowContextC1 0).packet.priority = 7 ∧
    (processPacket
        (processPacket [demoPolicyCirOnly] demoPacketC1a demoFlowContextC1 0).tree
        demoPacketC1b demoFlowContextC1 0).enqueue = false ∧
    (processPacket
        (processPacket [demoPolicyCirOnly] demoPacketC1a demoFlowContextC1 0).tree
        demoPacketC1b demoFlowContextC1 0).packet.conformance
        = ConformanceLevel.RED ∧
    demoPolicyCirOnly.target_priority_red = 7 ∧
    (processPacket
        (processPacket [demoPolicyCirOnly] demoPacketC1a demoFlowContextC1 0).tree
        demoPacketC1b demoFlowContextC1 0).packet.priority = 0 := by
  decide

/-- Claim C7: when the policy id bound in the flow context has no entry in
the policy tree, `process_packet` marks the descriptor RED, returns the drop
verdict, and returns on the normal (non-throwing) path with the policy tree
- hence every bucket - untouched. -/
theorem shaper_missing_policy_drops (tree : PolicyTree) (packet : PacketDescriptor)
    (fc : FlowContext) (now : Nat) (h : tree.findPolicy fc.policy_id = none) :
    processPacket tree packet fc now =
      { enqueue := false
        packet := { packet with conformance := ConformanceLevel.RED }
        tree := tree } := by
  simp only [processPacket, h]

/-- Witness for C7: a flow context bound to policy 999 against an empty
tree. -/
theorem shaper_missing_policy_drops_witness :
    PolicyTree.findPolicy [] demoFlowContextC7.policy_id = none ∧
    processPacket [] demoPacketC7 demoFlowContextC7 0 =
      { enqueue := false
        packet := { demoPacketC7 with conformance := ConformanceLevel.RED }
        tree := [] } :=
  ⟨by decide, shaper_missing_policy_drops [] demoPacketC7 demoFlowContextC7 0 (by decide)⟩

/-- Bytes of an appended packet add up. -/
theorem bufferBytes_append (l : List PacketDescriptor) (p : PacketDescriptor) :
    bufferBytes (l ++ [p]) = bufferBytes l + p.packet_length_bytes := by
  simp [bufferBytes]

/-- One AQM operation preserves the byte-accounting invariant. -/
theorem aqmWf_step (capacity : Nat) (q : RedAqmQueue) (op : AqmOp)
    (h : AqmWf capacity q) : AqmWf capacity (q.step op) := by
  obtain ⟨hc, hb, hle⟩ := h
  cases op with
  | enq p d =>
      simp only [RedAqmQueue.step, RedAqmQueue.enqueue]
      split_ifs <;> simp_all [AqmWf, bufferBytes_append]
  | deq =>
      simp only [RedAqmQueue.step, RedAqmQueue.dequeue]
      cases hq : q.packet_buffer with
      | nil => simp_all [AqmWf]
      | cons p rest =>
          simp_all [AqmWf, bufferBytes]
          omega

/-- Any operation sequence preserves the byte-accounting invariant. -/
theorem aqmWf_foldl (capacity : Nat) (ops : List AqmOp) (q : RedAqmQueue)
    (h : AqmWf capacity q) : AqmWf capacity (ops.foldl RedAqmQueue.step q) := by
  induction ops generalizing q with
  | nil => exact h
  | cons op rest ih => exact ih _ (aqmWf_step _ _ _ h)

/-- Claim C3: after any sequence of enqueues and dequeues,
`current_total_bytes` equals the summed lengths of the buffered packets and
never exceeds the configured capacity; and an arrival that would overflow
the capacity is rejected with the whole state - in particular the gentle-RED
`packets_since_last_drop` counter - unchanged, whatever the probabilistic
drop decision would have been. -/
theorem aqm_byte_accounting (capacity : Nat) (ops : List AqmOp) :
    (bufferBytes (RedAqmQueue.run capacity ops).packet_buffer
        = (RedAqmQueue.run capacity ops).current_total_bytes ∧
      (RedAqmQueue.run capacity ops).current_total_bytes ≤ capacity) ∧
    ∀ (p : PacketDescriptor) (d : Bool),
      capacity <
          (RedAqmQueue.run capacity ops).current_total_bytes + p.packet_length_bytes →
        (RedAqmQueue.run capacity ops).enqueue p d = (false, RedAqmQueue.run capacity ops) := by
  have hwf : AqmWf capacity (RedAqmQueue.run capacity ops) :=
    aqmWf_foldl capacity ops _ ⟨rfl, rfl, Nat.zero_le _⟩
  obtain ⟨hc, hb, hle⟩ := hwf
  refine ⟨⟨hb, hle⟩, ?_⟩
  intro p d h
  simp [RedAqmQueue.enqueue, hc, h]

/-- Witness for C3: a 10-byte queue holding 7 bytes rejects a 5-byte
arrival untouched. -/
theorem aqm_byte_accounting_witness :
    10 < (RedAqmQueue.run 10 demoOpsC3).current_total_bytes +
        demoPacketC3b.packet_length_bytes ∧
    (bufferBytes (RedAqmQueue.run 10 demoOpsC3).packet_buffer
        = (RedAqmQueue.run 10 demoOpsC3).current_total_bytes ∧
      (RedAqmQueue.run 10 demoOpsC3).current_total_bytes ≤ 10) ∧
    (RedAqmQueue.run 10 demoOpsC3).enqueue demoPacketC3b false
        = (false, RedAqmQueue.run 10 demoOpsC3) :=
  ⟨by decide, (aqm_byte_accounting 10 demoOpsC3).1,
    (aqm_byte_accounting 10 demoOpsC3).2 demoPacketC3b false (by decide)⟩

/-- An AQM queue dequeues `none` exactly on an empty buffer. -/
theorem RedAqmQueue.dequeue_eq_none (q : RedAqmQueue) :
    q.dequeue = none ↔ q.packet_buffer = [] := by
  cases hq : q.packet_buffer <;> simp [RedAqmQueue.dequeue, hq]

/-- A failed strict-priority scan means every level is empty. -/
theorem scanHighest_none_all_empty (qs : List RedAqmQueue)
    (h : StrictPriorityScheduler.scanHighest qs = none) :
    ∀ (j : Nat) (qj : RedAqmQueue), qs[j]? = some qj → qj.packet_buffer = [] := by
  induction qs with
  | nil =>
      intro j qj hj
      simp at hj
  | cons q rest ih =>
      cases hr : StrictPriorityScheduler.scanHighest rest with
      | some v =>
          obtain ⟨l0, p0, r0⟩ := v
          simp only [StrictPriorityScheduler.scanHighest, hr] at h
          exact Option.noConfusion h
      | none =>
          cases hd : q.dequeue with
          | some v =>
              obtain ⟨p0, q0⟩ := v
              simp only [StrictPriorityScheduler.scanHighest, hr, hd] at h
              exact Option.noConfusion h
          | none =>
              intro j qj hj
              cases j with
              | zero =>
                  simp only [List.getElem?_cons_zero, Option.some.injEq] at hj
                  subst hj
                  exact (RedAqmQueue.dequeue_eq_none q).mp hd
              | succ j' =>
                  simp only [List.getElem?_cons_succ] at hj
                  exact ih hr j' qj hj

/-- A successful strict-priority scan serves a level above which every queue
is empty. -/
theorem scanHighest_serves_highest (qs : List RedAqmQueue) (lvl : Nat)
    (p : PacketDescriptor) (qs' : List RedAqmQueue)
    (h : StrictPriorityScheduler.scanHighest qs = some (lvl, p, qs')) :
    ∀ (j : Nat) (qj : RedAqmQueue), lvl < j → qs[j]? = some qj →
      qj.packet_buffer = [] := by
  induction qs generalizing lvl p qs' with
  | nil => simp [StrictPriorityScheduler.scanHighest] at h
  | cons q rest ih =>
      cases hr : StrictPriorityScheduler.scanHighest rest with
      | some v =>
          obtain ⟨l0, p0, r0⟩ := v
          simp only [StrictPriorityScheduler.scanHighest, hr, Option.some.injEq,
            Prod.mk.injEq] at h
          obtain ⟨h1, h2, h3⟩ := h
          intro j qj hlt hj
          cases j with
          | zero => omega
          | succ j' =>
              simp only [List.getElem?_cons_succ] at hj
              exact ih l0 p0 r0 hr j' qj (by omega) hj
      | none =>
          cases hd : q.dequeue with
          | none =>
              simp only [StrictPriorityScheduler.scanHighest, hr, hd] at h
              exact Option.noConfusion h
          | some v =>
              obtain ⟨p0, q0⟩ := v
              simp only [StrictPriorityScheduler.scanHighest, hr, hd,
                Option.some.injEq, Prod.mk.injEq] at h
              obtain ⟨h1, h2, h3⟩ := h
              intro j qj hlt hj
              cases j with
              | zero => omega
              | succ j' =>
                  simp only [List.getElem?_cons_succ] at hj
                  exact scanHighest_none_all_empty rest hr j' qj hj

/-- Claim C4: whenever `dequeue` emits a packet from level `lvl`, every
priority queue strictly above `lvl` is empty in the pre-state: the scan runs
from the highest level downward, so a packet is never served from below a
non-empty level. -/
theorem sp_dequeue_serves_highest (s : StrictPriorityScheduler) (lvl : Nat)
    (p : PacketDescriptor) (s' : StrictPriorityScheduler)
    (h : s.dequeue = some (lvl, p, s')) :
    ((s.priority_queues.drop (lvl + 1)).all fun q => q.packet_buffer.isEmpty) = true := by
  simp only [StrictPriorityScheduler.dequeue] at h
  split_ifs at h
  cases hscan : StrictPriorityScheduler.scanHighest s.priority_queues with
  | none =>
      rw [hscan] at h
      exact Option.noConfusion h
  | some v =>
      obtain ⟨l0, p0, qs0⟩ := v
      rw [hscan] at h
      simp only [Option.some.injEq, Prod.mk.injEq] at h
      obtain ⟨h1, h2, h3⟩ := h
      rw [List.all_eq_true]
      intro x hx
      obtain ⟨j, hj⟩ := List.mem_iff_getElem?.mp hx
      have hidx : s.priority_queues[lvl + 1 + j]? = some x := by
        rw [← List.getElem?_drop]
        exact hj
      have hempty := scanHighest_serves_highest s.priority_queues l0 p0 qs0 hscan
        (lvl + 1 + j) x (by omega) hidx
      simp [hempty]

/-- Witness for C4: with packets at levels 0 and 1, `dequeue` serves level 1
and every level above 1 is empty. -/
theorem sp_dequeue_serves_highest_witness :
    demoSpsC4.dequeue = some (1, demoPacketC4b, demoSpsC4After) ∧
    ((demoSpsC4.priority_queues.drop (1 + 1)).all
        fun q => q.packet_buffer.isEmpty) = true :=
  ⟨by decide,
    sp_dequeue_serves_highest demoSpsC4 1 demoPacketC4b demoSpsC4After (by decide)⟩

/-- Claim C5 (divergence witness): `wrr_scheduler.cpp` pushes onto a plain
FIFO and increments `total_packets_` unconditionally, so a 100-byte packet
to queue 0 leaves the counter at 1; the scheduler state of
`wrr_scheduler.h` (AQM-backed queue, 10-byte physical capacity, counter
bumped only on acceptance - the contract the spec states for all three
work-conserving schedulers and that the WRR unit tests configure) rejects
the same packet and leaves the counter at 0. -/
theorem wrr_enqueue_counter_divergence :
    (demoWrrSrcC5.enqueue demoPacketC5).map (fun s => s.total_packets) = some 1 ∧
    ((RedAqmQueue.init 10).enqueue demoPacketC5 false).1 = false ∧
    (demoWrrHdrC5.enqueue demoPacketC5 false).map (fun s => s.total_packets)
        = some 0 := by
  decide

/-- The eligible-set order is total: two distinct keys are strictly ordered
one way or the other by `EligibleFlow::operator>`. -/
theorem eligibleFlow_gtOp_total (a b : EligibleFlow) (h : a ≠ b) :
    a.gtOp b = true ∨ b.gtOp a = true := by
  cases a with
  | mk av af =>
    cases b with
    | mk bv bf =>
      simp only [ne_eq, EligibleFlow.mk.injEq, not_and] at h
      simp only [EligibleFlow.gtOp]
      split_ifs <;> simp only [decide_eq_true_eq] <;> omega

/-- Claim C6: the HFSC scheduler is deterministic as a two-run statement -
two identically configured schedulers driven by equal call sequences with
equal packet lengths emit equal flow-id sequences - and the eligible set is
ordered by virtual finish time with a total tie-break on flow id. -/
theorem hfsc_deterministic_run (cfg1 cfg2 : List HfscScheduler.FlowConfig)
    (bw1 bw2 : Nat) (ops1 ops2 : List HfscOp)
    (hcfg : cfg1 = cfg2) (hbw : bw1 = bw2) (hops : ops1 = ops2) :
    hfscRun cfg1 bw1 ops1 = hfscRun cfg2 bw2 ops2 ∧
    ∀ a b : EligibleFlow, a ≠ b → a.gtOp b = true ∨ b.gtOp a = true := by
  subst hcfg hbw hops
  exact ⟨rfl, fun a b hab => eligibleFlow_gtOp_total a b hab⟩

/-- Witness for C6: a concrete two-flow configuration emits `[2, 1]` (flow 2
finishes at virtual time 500, flow 1 at 1000), equally on both runs. -/
theorem hfsc_deterministic_run_witness :
    hfscRun demoCfgC6 1000000 demoOpsC6 = some [2, 1] ∧
    hfscRun demoCfgC6 1000000 demoOpsC6 = hfscRun demoCfgC6 1000000 demoOpsC6 :=
  ⟨by decide,
    (hfsc_deterministic_run demoCfgC6 demoCfgC6 1000000 1000000 demoOpsC6 demoOpsC6
      rfl rfl rfl).1⟩

/-- A freshly published tuple mapping is found again. -/
theorem lookupTuple_cons_self (m : List (FiveTuple × Nat)) (t : FiveTuple) (x : Nat) :
    FlowClassifier.lookupTuple ((t, x) :: m) t = some x := by
  simp [FlowClassifier.lookupTuple, List.find?]

/-- Claim C8: `get_or_create_flow` is idempotent per 5-tuple.  A classifier
starts handing out ids at 1 (0 reserved); `next_flow_id` never decreases; a
hit returns the interned id without any allocation or state change; a miss
returns `next_flow_id`, bumps it by one, and installs a `FlowContext` bound
to the default policy id under the new flow id; and immediately repeating
the call returns the same id with the state unchanged. -/
theorem classifier_get_or_create_contract (c : FlowClassifier) (t : FiveTuple) :
    (∀ pid : Nat, (FlowClassifier.create pid).next_flow_id = 1) ∧
    ((c.get_or_create_flow t).2).get_or_create_flow t
        = ((c.get_or_create_flow t).1, (c.get_or_create_flow t).2) ∧
    c.next_flow_id ≤ (c.get_or_create_flow t).2.next_flow_id ∧
    (∀ fid : Nat,
      FlowClassifier.lookupTuple c.flow_key_to_flow_id_map t = some fid →
        c.get_or_create_flow t = (fid, c)) ∧
    (FlowClassifier.lookupTuple c.flow_key_to_flow_id_map t = none →
      FlowClassifier.lookupTable c.flow_table c.next_flow_id = none →
        (c.get_or_create_flow t).1 = c.next_flow_id ∧
        (c.get_or_create_flow t).2.next_flow_id = c.next_flow_id + 1 ∧
        FlowClassifier.lookupTable (c.get_or_create_flow t).2.flow_table
            c.next_flow_id
          = some { flow_id := c.next_flow_id, policy_id := c.default_policy_id,
                   queue_id := 0, drop_policy := DropPolicy.TAIL_DROP }) := by
  refine ⟨fun pid => rfl, ?_, ?_, ?_, ?_⟩
  · cases hm : FlowClassifier.lookupTuple c.flow_key_to_flow_id_map t with
    | some fid => simp [FlowClassifier.get_or_create_flow, hm]
    | none =>
        simp [FlowClassifier.get_or_create_flow, hm, lookupTuple_cons_self]
  · cases hm : FlowClassifier.lookupTuple c.flow_key_to_flow_id_map t with
    | some fid => simp [FlowClassifier.get_or_create_flow, hm]
    | none => simp [FlowClassifier.get_or_create_flow, hm]
  · intro fid hm
    simp [FlowClassifier.get_or_create_flow, hm]
  · intro hm htable
    have htable' := htable
    simp only [FlowClassifier.lookupTable] at htable'
    simp [FlowClassifier.get_or_create_flow, hm, FlowClassifier.lookupTable,
      htable', List.find?]

/-- Witness for C8: a fresh classifier with default policy 42 interns the
demo tuple as flow id 1 and installs its context. -/
theorem classifier_get_or_create_contract_witness :
    FlowClassifier.lookupTuple
        (FlowClassifier.create 42).flow_key_to_flow_id_map demoTupleC8 = none ∧
    FlowClassifier.lookupTable (FlowClassifier.create 42).flow_table
        (FlowClassifier.create 42).next_flow_id = none ∧
    (((FlowClassifier.create 42).get_or_create_flow demoTupleC8).1
        = (FlowClassifier.create 42).next_flow_id ∧
      ((FlowClassifier.create 42).get_or_create_flow demoTupleC8).2.next_flow_id
        = (FlowClassifier.create 42).next_flow_id + 1 ∧
      FlowClassifier.lookupTable
          ((FlowClassifier.create 42).get_or_create_flow demoTupleC8).2.flow_table
          (FlowClassifier.create 42).next_flow_id
        = some { flow_id := (FlowClassifier.create 42).next_flow_id, policy_id := 42,
                 queue_id := 0, drop_policy := DropPolicy.TAIL_DROP }) :=
  ⟨by decide, by decide,
    (classifier_get_or_create_contract (FlowClassifier.create 42)
      demoTupleC8).2.2.2.2 (by decide) (by decide)⟩

end Hqts
